import Mathlib

/-!
Verification of the DukaPOS real-time payment reconciliation pipeline.

The definitions below are a shallow embedding of the reconciliation code in
`src/electron/src/renderer/src/components/PaymentModal.tsx` (the event
handlers registered on the WebSocket channel, the cash tender handler, the
finalize debounce) together with the transport-level dispatch and
reconnection logic of `src/electron/src/renderer/src/hooks/useWebSocket.ts`
and the persistence step `handleCompleteSale` of the POS page.

JavaScript numbers are modelled by `ℚ`, missing (`undefined`) fields by
`Option`, and the component's mutable state by explicit state records that
each handler transforms.
-/

namespace DukaPOS

/-- One entry of the PaymentModal's `payments` state array: a TenderLine.
`code` is `details.code`, `tendered` is `details.tendered` (cash only),
`source` is `details.source`. -/
structure Payment where
  method : String
  amount : ℚ
  code : Option String := none
  tendered : Option ℚ := none
  source : Option String := none
  deriving Repr, DecidableEq

/-- The PaymentModal component state relevant to reconciliation. -/
structure ModalState where
  payments : List Payment
  checkoutRequestId : Option String
  isProcessing : Bool
  waitingForBuyGoods : Bool
  deriving Repr, DecidableEq

/-- Source expression `payments.reduce((acc, p) => acc + p.amount, 0)`. -/
def paidAmount (ps : List Payment) : ℚ :=
  ps.foldl (fun acc p => acc + p.amount) 0

/-- Source expression `Math.max(0, totalGross - paidAmount)`. -/
def remainingBalance (totalGross : ℚ) (ps : List Payment) : ℚ :=
  max 0 (totalGross - paidAmount ps)

/-- Source expression `remainingBalance <= 0.01`. -/
def isFullyPaid (totalGross : ℚ) (ps : List Payment) : Bool :=
  decide (remainingBalance totalGross ps ≤ 1 / 100)

/-- Payload of an `mpesa.stk_callback` event. -/
structure StkCallbackData where
  status : String
  checkout_request_id : Option String
  mpesa_receipt : Option String
  amount : Option ℚ
  deriving Repr, DecidableEq

/-- JavaScript `a || b` on an optional number: both `undefined` and `0`
are falsy, so they fall through to `b`. -/
def jsNumOr (a : Option ℚ) (b : ℚ) : ℚ :=
  match a with
  | none => b
  | some x => if x = 0 then b else x

/-- The TenderLine appended by the STK-callback handler. -/
def stkPayment (amt : ℚ) (receipt : Option String) : Payment :=
  { method := "mpesa", amount := amt, code := receipt, source := some "stk" }

/-- The `unsubStk` handler (PaymentModal.tsx lines 99-111): on a successful
STK callback matching the outstanding `checkoutRequestId`, append a mobile
TenderLine of `data.amount || remainingBalance`, clear the request id and
the processing flag. -/
def handleStkCallback (totalGross : ℚ) (s : ModalState) (d : StkCallbackData) :
    ModalState :=
  match s.checkoutRequestId with
  | some rid =>
    if d.status = "success" ∧ d.checkout_request_id = some rid then
      { s with
        payments := s.payments ++
          [stkPayment (jsNumOr d.amount (remainingBalance totalGross s.payments))
            d.mpesa_receipt],
        checkoutRequestId := none,
        isProcessing := false }
    else s
  | none => s

/-- Payload of an `mpesa.payment_received` (C2B / Buy Goods) event. -/
structure C2bData where
  trans_id : String
  amount : ℚ
  phone : Option String := none
  customer_name : Option String := none
  deriving Repr, DecidableEq

/-- The TenderLine appended by the C2B handler. -/
def c2bPayment (d : C2bData) : Payment :=
  { method := "mpesa", amount := d.amount, code := some d.trans_id,
    source := some "c2b" }

/-- Source expression `payments.some(p => p.details?.code === data.trans_id)`. -/
def hasCode (ps : List Payment) (t : String) : Bool :=
  ps.any fun p => decide (p.code = some t)

/-- The `unsubC2b` handler (PaymentModal.tsx lines 114-131): auto-credit an
inbound payment when `|amount - remainingBalance| < 1` or
`0 < amount ≤ totalGross`, unless its `trans_id` already appears as a
payment's `details.code`. -/
def handleC2b (totalGross : ℚ) (s : ModalState) (d : C2bData) : ModalState :=
  if |d.amount - remainingBalance totalGross s.payments| < 1 ∨
      (0 < d.amount ∧ d.amount ≤ totalGross) then
    if hasCode s.payments d.trans_id then s
    else
      { s with payments := s.payments ++ [c2bPayment d],
               waitingForBuyGoods := false }
  else s

/-- The TenderLine appended by the cash handler: credited amount plus the
raw tendered amount in the details. -/
def cashPayment (credited tendered : ℚ) : Payment :=
  { method := "cash", amount := credited, tendered := some tendered }

/-- Handler `handleAddCashPayment` (PaymentModal.tsx lines 197-205): `parsed` is the
result of `parseFloat(currentAmount)` with `none` standing for `NaN`; a
`NaN` or non-positive amount returns without appending; otherwise the
credited amount is `Math.min(amount, remainingBalance)` and the raw amount
is kept as `details.tendered`. -/
def handleAddCashPayment (totalGross : ℚ) (s : ModalState) (parsed : Option ℚ) :
    ModalState :=
  match parsed with
  | none => s
  | some amount =>
    if amount ≤ 0 then s
    else
      { s with payments := s.payments ++
          [cashPayment (min amount (remainingBalance totalGross s.payments))
            amount] }

/-- Source constant `COMPLETE_DEBOUNCE_MS = 200`. -/
def COMPLETE_DEBOUNCE_MS : ℤ := 200

/-- Helper `withCompleteDebounce` (PaymentModal.tsx lines 79-87): given the stored
`lastCompleteTapRef` and the current time, either skip (`false`, ref
unchanged) when the previous tap was under 200ms ago, or run the callback
(`true`) and record the tap time. -/
def withCompleteDebounce (lastCompleteTap now : ℤ) : Bool × ℤ :=
  if now - lastCompleteTap < COMPLETE_DEBOUNCE_MS then (false, lastCompleteTap)
  else (true, now)

/-- Effect of `resetAndClose`: every piece of modal state is cleared. -/
def resetModalState : ModalState :=
  { payments := [], checkoutRequestId := none, isProcessing := false,
    waitingForBuyGoods := false }

/-- Result of one `handleFinalizeSale` call: the modal state afterwards, the
updated `lastCompleteTapRef`, and whether `onCompleteSale` was invoked. -/
structure FinalizeResult where
  state : ModalState
  lastCompleteTap : ℤ
  completedSale : Bool
  deriving Repr, DecidableEq

/-- Handler `handleFinalizeSale` (PaymentModal.tsx lines 273-284): returns
immediately unless fully paid; otherwise, under the debounce, invokes
`onCompleteSale` and resets the modal. -/
def handleFinalizeSale (totalGross : ℚ) (s : ModalState)
    (lastCompleteTap now : ℤ) : FinalizeResult :=
  if isFullyPaid totalGross s.payments then
    match withCompleteDebounce lastCompleteTap now with
    | (false, l) => ⟨s, l, false⟩
    | (true, l) => ⟨resetModalState, l, true⟩
  else ⟨s, lastCompleteTap, false⟩

/-- Outcome of the whole finalize flow including the downstream persistence
call. `handleCompleteSale` (src/unnamed/part_017 lines 451-505) posts the
transaction; on failure it shows an error and returns early, so the sale is
recorded iff the POST succeeds (`persistOk`). The PaymentModal has already
run `resetAndClose` synchronously, independent of that outcome. -/
structure FinalizeFlowResult where
  state : ModalState
  lastCompleteTap : ℤ
  saleRecorded : Bool
  deriving Repr, DecidableEq

/-- Composition of `handleFinalizeSale` with the (not awaited) persistence
call: the modal state and tap ref come from `handleFinalizeSale` alone; the
sale is recorded only when `onCompleteSale` fired and the POST succeeded. -/
def finalizeFlow (totalGross : ℚ) (s : ModalState) (lastCompleteTap now : ℤ)
    (persistOk : Bool) : FinalizeFlowResult :=
  let r := handleFinalizeSale totalGross s lastCompleteTap now
  ⟨r.state, r.lastCompleteTap, r.completedSale && persistOk⟩

/-- A message delivered on the WebSocket channel (`{type, data, ...}`). -/
structure WsMessage where
  type : String
  data : String
  deriving Repr, DecidableEq

/-- A registered event handler. The returned value is the handler's
observable output; `Except.error` models a thrown exception. -/
def WsHandler : Type := WsMessage → Except String String

/-- Registration `subscribe` (useWebSocket.ts lines 269-279): handlers are kept in a
`Set` per event type and iterated in insertion order, so registration is
appending to the list. -/
def subscribeHandler (hs : List WsHandler) (h : WsHandler) : List WsHandler :=
  hs ++ [h]

/-- Iteration `handlers.forEach((handler) => handler(message))` with JavaScript
exception propagation: outputs of the handlers that ran, and the escaped
exception if one of them threw (the remaining ones are skipped). -/
def runSeq (hs : List WsHandler) (m : WsMessage) :
    List String × Option String :=
  match hs with
  | [] => ([], none)
  | h :: t =>
    match h m with
    | Except.ok out =>
      let r := runSeq t m
      (out :: r.1, r.2)
    | Except.error e => ([], some e)

/-- Dispatch `ws.onmessage` (useWebSocket.ts lines 229-245): inside one try/catch,
run the type-specific handlers, then the subscribe-all handlers; an
exception thrown by any handler is caught at the message level, aborting
everything after it. Returns the outputs of the handlers that actually
ran. -/
def onMessageDispatch (typeHandlers allHandlers : List WsHandler)
    (m : WsMessage) : List String :=
  let r1 := runSeq typeHandlers m
  match r1.2 with
  | some _ => r1.1
  | none =>
    let r2 := runSeq allHandlers m
    r1.1 ++ r2.1

/-- Connection state of the `useWebSocket` hook. -/
structure WsState where
  isConnected : Bool
  reconnectAttempts : ℕ
  error : Option String
  deriving Repr, DecidableEq

/-- Handler `ws.onopen` (useWebSocket.ts lines 196-201). -/
def onOpen (s : WsState) : WsState :=
  { s with isConnected := true, error := none, reconnectAttempts := 0 }

/-- Handler `ws.onclose` (useWebSocket.ts lines 203-222): on an unintentional close
(code ≠ 1000, autoReconnect on) bump the attempt counter; while within
`maxReconnectAttempts` schedule a reconnect after
`Math.min(reconnectDelay * Math.pow(2, attempts - 1), 30000)` ms (returned
as the second component), otherwise set a persistent error. -/
def onClose (autoReconnect : Bool) (maxReconnectAttempts reconnectDelay : ℕ)
    (s : WsState) (code : ℕ) : WsState × Option ℕ :=
  if autoReconnect ∧ code ≠ 1000 then
    let attempts := s.reconnectAttempts + 1
    if attempts ≤ maxReconnectAttempts then
      ({ s with isConnected := false, reconnectAttempts := attempts },
       some (min (reconnectDelay * 2 ^ (attempts - 1)) 30000))
    else
      ({ s with isConnected := false,
                reconnectAttempts := attempts,
                error := some "Failed to reconnect" }, none)
  else ({ s with isConnected := false }, none)

theorem paidAmount_shift (ps : List Payment) (a : ℚ) :
    List.foldl (fun acc p => acc + p.amount) a ps = a + paidAmount ps := by
  induction ps generalizing a with
  | nil => simp [paidAmount]
  | cons p t ih =>
    have hl : List.foldl (fun acc p => acc + p.amount) a (p :: t)
        = List.foldl (fun acc p => acc + p.amount) (a + p.amount) t := rfl
    have hr : paidAmount (p :: t)
        = List.foldl (fun acc p => acc + p.amount) (0 + p.amount) t := rfl
    rw [hl, hr, ih, ih]
    ring

theorem paidAmount_append (ps qs : List Payment) :
    paidAmount (ps ++ qs) = paidAmount ps + paidAmount qs := by
  show List.foldl (fun acc p => acc + p.amount) 0 (ps ++ qs) = _
  rw [List.foldl_append, paidAmount_shift]
  rfl

theorem paidAmount_cons (p : Payment) (ps : List Payment) :
    paidAmount (p :: ps) = p.amount + paidAmount ps := by
  have h : p :: ps = [p] ++ ps := rfl
  rw [h, paidAmount_append]
  simp [paidAmount]

theorem paidAmount_nonneg (qs : List Payment) (h : ∀ q ∈ qs, 0 ≤ q.amount) :
    0 ≤ paidAmount qs := by
  induction qs with
  | nil => simp [paidAmount]
  | cons p t ih =>
    have hp := h p (by simp)
    have ht := ih fun q hq => h q (by simp [hq])
    rw [paidAmount_cons]
    linarith

/-- C4 (amended): for every checkout session, `remainingBalance` is never
negative, and it is non-increasing across any sequence of TenderLine
additions whose amounts are all non-negative. -/
theorem remainingBalance_nonneg_antitone (g : ℚ) (ps qs : List Payment)
    (h : ∀ q ∈ qs, 0 ≤ q.amount) :
    0 ≤ remainingBalance g ps ∧
    remainingBalance g (ps ++ qs) ≤ remainingBalance g ps := by
  refine ⟨le_max_left 0 _, ?_⟩
  unfold remainingBalance
  apply max_le_max le_rfl
  rw [paidAmount_append]
  have := paidAmount_nonneg qs h
  linarith

theorem remainingBalance_nonneg_antitone_witness :
    0 ≤ remainingBalance 100 [cashPayment 40 40] ∧
    remainingBalance 100 ([cashPayment 40 40] ++ [c2bPayment ⟨"T3", 30, none, none⟩])
      ≤ remainingBalance 100 [cashPayment 40 40] :=
  remainingBalance_nonneg_antitone 100 [cashPayment 40 40]
    [c2bPayment ⟨"T3", 30, none, none⟩]
    (by intro q hq; simp at hq; rw [hq]; norm_num [c2bPayment])

/-- The TenderLine already credited in the C4 counterexample session. -/
def c4Pay : Payment :=
  { method := "mpesa", amount := 100, code := some "T1", source := some "c2b" }

/-- Session used in the C4 counterexample: a fully-paid checkout of 100. -/
def c4State : ModalState :=
  { payments := [c4Pay], checkoutRequestId := none, isProcessing := false,
    waitingForBuyGoods := false }

/-- Inbound event with a negative amount, within 1 of the zero balance. -/
def c4Evt : C2bData := { trans_id := "T2", amount := -(1 / 2) }

/-- C4 counterexample: the C2B handler appends a TenderLine of negative
amount (it passes the `|amount - remainingBalance| < 1` window against a
zero balance), and `remainingBalance` strictly increases — so it is not
monotonically non-increasing across TenderLine additions. -/
theorem remainingBalance_increases_counterexample :
    (handleC2b 100 c4State c4Evt).payments
      = c4State.payments ++ [c2bPayment c4Evt] ∧
    remainingBalance 100 c4State.payments
      < remainingBalance 100 (handleC2b 100 c4State c4Evt).payments := by
  have hpaid : paidAmount c4State.payments = 100 := by
    simp [c4State, paidAmount, c4Pay]
  have hrb : remainingBalance 100 c4State.payments = 0 := by
    rw [remainingBalance, hpaid]; norm_num
  have hcond : |c4Evt.amount - remainingBalance 100 c4State.payments| < 1 ∨
      (0 < c4Evt.amount ∧ c4Evt.amount ≤ 100) := by
    left
    rw [hrb, show c4Evt.amount = -(1 / 2) from rfl]
    rw [abs_of_nonpos (by norm_num)]
    norm_num
  have hdup : hasCode c4State.payments c4Evt.trans_id = false := by
    simp [hasCode, c4State, c4Pay, c4Evt]
  have hstep : handleC2b 100 c4State c4Evt
      = { c4State with payments := c4State.payments ++ [c2bPayment c4Evt],
                       waitingForBuyGoods := false } := by
    rw [handleC2b, if_pos hcond, if_neg (by rw [hdup]; exact Bool.false_ne_true)]
  refine ⟨by rw [hstep], ?_⟩
  rw [hstep, hrb]
  have hpaid2 : paidAmount (c4State.payments ++ [c2bPayment c4Evt])
      = 100 + -(1 / 2) := by
    rw [paidAmount_append, hpaid]
    simp [paidAmount, c2bPayment, c4Evt]
  show (0 : ℚ) < remainingBalance 100 (c4State.payments ++ [c2bPayment c4Evt])
  rw [remainingBalance, hpaid2]
  rw [show (100 : ℚ) - (100 + -(1 / 2)) = 1 / 2 by ring]
  norm_num

/-- C5: for any positive parsed tendered amount `t`, the appended cash
TenderLine credits exactly `min t remainingBalance` (never more than the
remaining balance) while recording the raw `t` as the tendered detail; a
`NaN` or non-positive input appends nothing. -/
theorem cash_credit_capped (g : ℚ) (s : ModalState) (t : ℚ) (ht : 0 < t) :
    (handleAddCashPayment g s (some t)).payments
      = s.payments ++ [cashPayment (min t (remainingBalance g s.payments)) t] ∧
    min t (remainingBalance g s.payments) ≤ remainingBalance g s.payments ∧
    handleAddCashPayment g s none = s ∧
    ∀ u : ℚ, u ≤ 0 → handleAddCashPayment g s (some u) = s := by
  refine ⟨?_, min_le_right _ _, rfl, ?_⟩
  · show ((if t ≤ 0 then s else
      { s with payments := s.payments ++
          [cashPayment (min t (remainingBalance g s.payments)) t] }) :
        ModalState).payments = _
    rw [if_neg (not_le.mpr ht)]
  · intro u hu
    show (if u ≤ 0 then s else
      { s with payments := s.payments ++
          [cashPayment (min u (remainingBalance g s.payments)) u] }) = s
    rw [if_pos hu]

/-- Session used in the C5 witness: an open checkout of 100, nothing paid. -/
def c5State : ModalState :=
  { payments := [], checkoutRequestId := none, isProcessing := false,
    waitingForBuyGoods := false }

theorem cash_credit_capped_witness :
    (handleAddCashPayment 100 c5State (some 150)).payments
      = c5State.payments ++
        [cashPayment (min 150 (remainingBalance 100 c5State.payments)) 150] ∧
    min 150 (remainingBalance 100 c5State.payments)
      ≤ remainingBalance 100 c5State.payments ∧
    handleAddCashPayment 100 c5State none = c5State ∧
    ∀ u : ℚ, u ≤ 0 → handleAddCashPayment 100 c5State (some u) = c5State :=
  cash_credit_capped 100 c5State 150 (by norm_num)

/-- C3: in a fully-paid session, when a first `handleFinalizeSale` call at
time `t1` passes the debounce, a second call strictly less than 200ms later
invokes `onCompleteSale` zero further times and changes nothing: the result
of the second call is the first call's result with `completedSale` false. -/
theorem finalize_debounce_idempotent (g : ℚ) (s : ModalState) (last t1 t2 : ℤ)
    (hfp : isFullyPaid g s.payments = true)
    (hfirst : COMPLETE_DEBOUNCE_MS ≤ t1 - last)
    (hsecond : t2 - t1 < COMPLETE_DEBOUNCE_MS) :
    (handleFinalizeSale g s last t1).completedSale = true ∧
    handleFinalizeSale g (handleFinalizeSale g s last t1).state
        (handleFinalizeSale g s last t1).lastCompleteTap t2
      = { handleFinalizeSale g s last t1 with completedSale := false } := by
  have hdb1 : withCompleteDebounce last t1 = (true, t1) := by
    rw [withCompleteDebounce, if_neg (not_lt.mpr hfirst)]
  have h1 : handleFinalizeSale g s last t1 = ⟨resetModalState, t1, true⟩ := by
    rw [handleFinalizeSale, hfp, hdb1]
    rfl
  have hdb2 : withCompleteDebounce t1 t2 = (false, t1) := by
    rw [withCompleteDebounce, if_pos hsecond]
  have h2 : handleFinalizeSale g resetModalState t1 t2
      = ⟨resetModalState, t1, false⟩ := by
    rw [handleFinalizeSale]
    cases hf : isFullyPaid g resetModalState.payments
    · rfl
    · rw [hdb2]
      rfl
  rw [h1]
  exact ⟨rfl, h2⟩

/-- Session used in the C3 witness: a checkout of 10 paid in full by one
cash TenderLine. -/
def c3State : ModalState :=
  { payments := [cashPayment 10 10], checkoutRequestId := none,
    isProcessing := false, waitingForBuyGoods := false }

theorem finalize_debounce_idempotent_witness :
    (handleFinalizeSale 10 c3State 0 300).completedSale = true ∧
    handleFinalizeSale 10 (handleFinalizeSale 10 c3State 0 300).state
        (handleFinalizeSale 10 c3State 0 300).lastCompleteTap 400
      = { handleFinalizeSale 10 c3State 0 300 with completedSale := false } :=
  finalize_debounce_idempotent 10 c3State 0 300 400
    (by rw [isFullyPaid, decide_eq_true_eq, remainingBalance,
            show paidAmount c3State.payments = 10 by
              simp [c3State, paidAmount, cashPayment]]
        norm_num)
    (by norm_num [COMPLETE_DEBOUNCE_MS])
    (by norm_num [COMPLETE_DEBOUNCE_MS])

theorem handleC2b_credits (g : ℚ) (s : ModalState) (e : C2bData)
    (hc : |e.amount - remainingBalance g s.payments| < 1 ∨
      (0 < e.amount ∧ e.amount ≤ g))
    (hd : hasCode s.payments e.trans_id = false) :
    handleC2b g s e
      = { s with payments := s.payments ++ [c2bPayment e],
                 waitingForBuyGoods := false } := by
  rw [handleC2b, if_pos hc, if_neg (by rw [hd]; exact Bool.false_ne_true)]

theorem handleC2b_skips (g : ℚ) (s : ModalState) (e : C2bData)
    (h : ¬ (|e.amount - remainingBalance g s.payments| < 1 ∨
        (0 < e.amount ∧ e.amount ≤ g)) ∨
      hasCode s.payments e.trans_id = true) :
    handleC2b g s e = s := by
  rcases h with hc | hd
  · rw [handleC2b, if_neg hc]
  · by_cases hc : |e.amount - remainingBalance g s.payments| < 1 ∨
        (0 < e.amount ∧ e.amount ≤ g)
    · rw [handleC2b, if_pos hc, if_pos hd]
    · rw [handleC2b, if_neg hc]

theorem hasCode_append_c2b (ps : List Payment) (e : C2bData) :
    hasCode (ps ++ [c2bPayment e]) e.trans_id = true := by
  simp [hasCode, c2bPayment]

/-- Whatever the starting state, delivering the same C2B event a second
time changes nothing: either the first delivery was already skipped, or its
`trans_id` is now present in the payments and the dedup guard fires. -/
theorem handleC2b_idem (g : ℚ) (e : C2bData) (s : ModalState) :
    handleC2b g (handleC2b g s e) e = handleC2b g s e := by
  by_cases hc : |e.amount - remainingBalance g s.payments| < 1 ∨
      (0 < e.amount ∧ e.amount ≤ g)
  · cases hd : hasCode s.payments e.trans_id
    · have h1 := handleC2b_credits g s e hc hd
      have hdup : hasCode (handleC2b g s e).payments e.trans_id = true := by
        rw [h1]
        exact hasCode_append_c2b s.payments e
      exact handleC2b_skips g _ e (Or.inr hdup)
    · have h1 := handleC2b_skips g s e (Or.inr hd)
      rw [h1]
      exact h1
  · have h1 := handleC2b_skips g s e (Or.inl hc)
    rw [h1]
    exact h1

/-- C1: payment events are credited at most once per idempotency key. After
a push confirmation matching the outstanding `checkoutRequestId` is
credited, the id is cleared, so any further STK callback (same or different
payload) is a no-op; an inbound C2B event whose `trans_id` already appears
as some payment's `details.code` is a no-op; and re-delivering any C2B
event is a no-op. -/
theorem payment_credit_at_most_once (g : ℚ) (s : ModalState) (rid : String)
    (d d' : StkCallbackData) (e : C2bData)
    (hrid : s.checkoutRequestId = some rid)
    (hok : d.status = "success" ∧ d.checkout_request_id = some rid)
    (hdup : hasCode s.payments e.trans_id = true) :
    (handleStkCallback g s d).checkoutRequestId = none ∧
    handleStkCallback g (handleStkCallback g s d) d'
      = handleStkCallback g s d ∧
    handleC2b g s e = s ∧
    ∀ s₂ : ModalState, handleC2b g (handleC2b g s₂ e) e = handleC2b g s₂ e := by
  have h1 : handleStkCallback g s d
      = { s with
          payments := s.payments ++
            [stkPayment (jsNumOr d.amount (remainingBalance g s.payments))
              d.mpesa_receipt],
          checkoutRequestId := none,
          isProcessing := false } := by
    rw [handleStkCallback, hrid]
    simp only [if_pos hok]
  refine ⟨by rw [h1], ?_, handleC2b_skips g s e (Or.inr hdup),
    fun s₂ => handleC2b_idem g e s₂⟩
  rw [h1]
  rfl

/-- State used in the C1 witness: an open checkout of 1000 that already has
one C2B payment of 300 (code T1) and an outstanding STK request R1. -/
def c1State : ModalState :=
  { payments := [c2bPayment ⟨"T1", 300, none, none⟩],
    checkoutRequestId := some "R1", isProcessing := true,
    waitingForBuyGoods := false }

/-- STK callback used in the C1 witness. -/
def c1Stk : StkCallbackData :=
  { status := "success", checkout_request_id := some "R1",
    mpesa_receipt := some "RCPT1", amount := some 700 }

/-- Duplicate C2B event used in the C1 witness. -/
def c1C2b : C2bData := { trans_id := "T1", amount := 300 }

theorem payment_credit_at_most_once_witness :
    (handleStkCallback 1000 c1State c1Stk).checkoutRequestId = none ∧
    handleStkCallback 1000 (handleStkCallback 1000 c1State c1Stk) c1Stk
      = handleStkCallback 1000 c1State c1Stk ∧
    handleC2b 1000 c1State c1C2b = c1State ∧
    ∀ s₂ : ModalState,
      handleC2b 1000 (handleC2b 1000 s₂ c1C2b) c1C2b
        = handleC2b 1000 s₂ c1C2b :=
  payment_credit_at_most_once 1000 c1State "R1" c1Stk c1Stk c1C2b rfl
    ⟨rfl, rfl⟩ (by decide)

/-- C2: the C2B reconciliation handler appends a TenderLine of exactly the
event's amount when the amount window matches (`|amount - remainingBalance|
< 1` or `0 < amount ≤ totalGross`) and the `trans_id` is new; in every
other case it appends nothing. -/
theorem c2b_autocredit_characterization (g : ℚ) (s : ModalState)
    (e : C2bData) :
    ((|e.amount - remainingBalance g s.payments| < 1 ∨
        (0 < e.amount ∧ e.amount ≤ g)) →
      hasCode s.payments e.trans_id = false →
      (handleC2b g s e).payments = s.payments ++ [c2bPayment e]) ∧
    ((¬ (|e.amount - remainingBalance g s.payments| < 1 ∨
        (0 < e.amount ∧ e.amount ≤ g)) ∨
      hasCode s.payments e.trans_id = true) →
      (handleC2b g s e).payments = s.payments) := by
  constructor
  · intro hc hd
    rw [handleC2b_credits g s e hc hd]
  · intro h
    rw [handleC2b_skips g s e h]

/-- Scenario-D session for the C2 witness: an open checkout of 500 with no
payments yet, so `remainingBalance` is 500. -/
def c2State : ModalState :=
  { payments := [], checkoutRequestId := none, isProcessing := false,
    waitingForBuyGoods := false }

/-- Scenario-D event: an unsolicited inbound payment of 50. -/
def c2Evt : C2bData := { trans_id := "TX1", amount := 50 }

/-- An inbound payment of 2000 fails both disjuncts against target 500. -/
def c2EvtBad : C2bData := { trans_id := "TX2", amount := 2000 }

theorem c2b_autocredit_characterization_witness :
    (handleC2b 500 c2State c2Evt).payments
      = c2State.payments ++ [c2bPayment c2Evt] ∧
    (handleC2b 500 c2State c2EvtBad).payments = c2State.payments :=
  ⟨(c2b_autocredit_characterization 500 c2State c2Evt).1
      (Or.inr (by constructor <;> norm_num [c2Evt])) (by decide),
   (c2b_autocredit_characterization 500 c2State c2EvtBad).2
      (Or.inl (by
        rw [show remainingBalance 500 c2State.payments = 500 by
              rw [remainingBalance, show paidAmount c2State.payments = 0 by
                simp [c2State, paidAmount]]
              norm_num]
        push_neg
        constructor
        · rw [show c2EvtBad.amount = 2000 from rfl]
          rw [show (2000 : ℚ) - 500 = 1500 by norm_num]
          rw [abs_of_nonneg (by norm_num)]
          norm_num
        · intro h
          norm_num [c2EvtBad]))⟩

/-- Session used in the C6 theorem: a fully-paid checkout of 200 with one
cash TenderLine. -/
def c6State : ModalState :=
  { payments := [cashPayment 200 200], checkoutRequestId := none,
    isProcessing := false, waitingForBuyGoods := false }

/-- C6: the code contradicts the claim. Finalizing a fully-paid session at
time 1000 (debounce passes) with a FAILING downstream persistence call
still clears the payments list: the sale is not recorded, yet the
TenderLines are not retained for a retry. -/
theorem finalize_discards_tenders_on_persist_failure :
    (finalizeFlow 200 c6State 0 1000 false).saleRecorded = false ∧
    (finalizeFlow 200 c6State 0 1000 false).state.payments = [] ∧
    c6State.payments ≠ [] := by
  have hfp : isFullyPaid 200 c6State.payments = true := by
    rw [isFullyPaid, decide_eq_true_eq, remainingBalance,
        show paidAmount c6State.payments = 200 by
          simp [c6State, paidAmount, cashPayment]]
    norm_num
  have hdb : withCompleteDebounce 0 1000 = (true, 1000) := by
    rw [withCompleteDebounce, if_neg (by norm_num [COMPLETE_DEBOUNCE_MS])]
  have hfin : handleFinalizeSale 200 c6State 0 1000
      = ⟨resetModalState, 1000, true⟩ := by
    rw [handleFinalizeSale, hfp, hdb]
    rfl
  refine ⟨?_, ?_, by simp [c6State]⟩
  · show ((handleFinalizeSale 200 c6State 0 1000).completedSale && false) = false
    rw [hfin]
    rfl
  · show (handleFinalizeSale 200 c6State 0 1000).state.payments = []
    rw [hfin]
    rfl

/-- Session used in the C7 counterexample: a checkout of 100 already fully
paid, so `remainingBalance` is 0. -/
def c7State : ModalState :=
  { payments := [c2bPayment ⟨"T1", 100, none, none⟩],
    checkoutRequestId := none, isProcessing := false,
    waitingForBuyGoods := false }

/-- A malformed inbound event: its amount is 0 (non-positive). -/
def c7Evt : C2bData := { trans_id := "T2", amount := 0 }

/-- C7 counterexample: a non-positive (zero) amount is NOT rejected — it
falls inside the `|amount - remainingBalance| < 1` window against the
zero balance and a TenderLine is appended, mutating the session. -/
theorem malformed_amount_credited_counterexample :
    c7Evt.amount ≤ 0 ∧
    (handleC2b 100 c7State c7Evt).payments
      = c7State.payments ++ [c2bPayment c7Evt] := by
  have hpaid : paidAmount c7State.payments = 100 := by
    simp [c7State, paidAmount, c2bPayment]
  have hrb : remainingBalance 100 c7State.payments = 0 := by
    rw [remainingBalance, hpaid]
    norm_num
  have hc : |c7Evt.amount - remainingBalance 100 c7State.payments| < 1 ∨
      (0 < c7Evt.amount ∧ c7Evt.amount ≤ 100) := by
    left
    rw [hrb, show c7Evt.amount = 0 from rfl]
    norm_num
  refine ⟨by norm_num [c7Evt], ?_⟩
  rw [handleC2b_credits 100 c7State c7Evt hc (by decide)]

/-- C7 (amended): the C2B handler does reject a non-positive amount
whenever the remaining balance is at least 1 (the amount then fails both
disjuncts of the match window): no TenderLine is appended and the state is
fully unchanged. -/
theorem nonpositive_amount_rejected_when_balance_at_least_one
    (g : ℚ) (s : ModalState) (e : C2bData)
    (ha : e.amount ≤ 0) (hrb : 1 ≤ remainingBalance g s.payments) :
    handleC2b g s e = s := by
  apply handleC2b_skips
  left
  rintro (h1 | h2)
  · rw [abs_of_nonpos (by linarith)] at h1
    linarith
  · linarith [h2.1]

theorem nonpositive_amount_rejected_witness :
    handleC2b 100 c2State ⟨"T9", -5, none, none⟩ = c2State :=
  nonpositive_amount_rejected_when_balance_at_least_one 100 c2State
    ⟨"T9", -5, none, none⟩ (by norm_num)
    (by rw [remainingBalance, show paidAmount c2State.payments = 0 by
          simp [c2State, paidAmount]]
        norm_num)

/-- A handler that runs normally, producing a fixed output token. -/
def okH (out : String) : WsHandler := fun _ => Except.ok out

/-- A handler that throws. -/
def errH (e : String) : WsHandler := fun _ => Except.error e

theorem runSeq_map_okH (outs : List String) (m : WsMessage) :
    runSeq (outs.map okH) m = (outs, none) := by
  induction outs with
  | nil => rfl
  | cons o t ih => simp [runSeq, okH, ih]

theorem runSeq_throw (pre : List String) (e : String) (post : List WsHandler)
    (m : WsMessage) :
    runSeq (pre.map okH ++ errH e :: post) m = (pre, some e) := by
  induction pre with
  | nil => rfl
  | cons o t ih => simp [runSeq, okH, ih]

/-- C8 (amended): handlers run in registration order — with no throwing
handler the dispatched outputs are exactly the type-specific handlers'
outputs followed by the subscribe-all handlers' outputs, in registration
order — but a throwing handler aborts the dispatch: only the type-specific
handlers registered before it run; the ones after it and every
subscribe-all handler are skipped. -/
theorem dispatch_order_and_throw_aborts (outs allOuts pre : List String)
    (e : String) (post rest : List WsHandler) (m : WsMessage) :
    onMessageDispatch (outs.map okH) (allOuts.map okH) m = outs ++ allOuts ∧
    onMessageDispatch (pre.map okH ++ errH e :: post) rest m = pre := by
  constructor
  · rw [onMessageDispatch]
    rw [runSeq_map_okH, runSeq_map_okH]
  · rw [onMessageDispatch]
    rw [runSeq_throw]

/-- Message used in the C8 counterexample. -/
def c8Msg : WsMessage := { type := "mpesa.payment_received", data := "{}" }

/-- C8 counterexample: with handlers registered in the order h1, h2 (which
throws), h3, plus one subscribe-all handler, only h1 runs: the outputs of
h3 and of the subscribe-all handler never appear, so a throwing handler
DOES prevent the remaining handlers from running. -/
theorem throwing_handler_skips_rest_counterexample :
    onMessageDispatch [okH "h1", errH "boom", okH "h3"] [okH "hall"] c8Msg
      = ["h1"] ∧
    "h3" ∉ onMessageDispatch [okH "h1", errH "boom", okH "h3"] [okH "hall"]
      c8Msg ∧
    "hall" ∉ onMessageDispatch [okH "h1", errH "boom", okH "h3"] [okH "hall"]
      c8Msg := by
  have h : onMessageDispatch [okH "h1", errH "boom", okH "h3"] [okH "hall"]
      c8Msg = ["h1"] := rfl
  refine ⟨h, ?_, ?_⟩ <;> rw [h] <;> simp

/-- C9: unintentional disconnects (close code ≠ 1000) schedule a reconnect
after exactly `min (reconnectDelay * 2 ^ n) 30000` ms where `n` is the
number of prior consecutive failed attempts, as long as the new attempt
count stays within `maxReconnectAttempts`; beyond that no reconnect is
scheduled and a persistent error is set; an intentional close (code 1000)
schedules nothing; a successful open resets the attempt counter to zero. -/
theorem reconnect_backoff_policy (maxA d0 : ℕ) (s : WsState) (code : ℕ) :
    (code ≠ 1000 → s.reconnectAttempts + 1 ≤ maxA →
      onClose true maxA d0 s code
        = ({ s with isConnected := false,
                    reconnectAttempts := s.reconnectAttempts + 1 },
           some (min (d0 * 2 ^ s.reconnectAttempts) 30000))) ∧
    (code ≠ 1000 → maxA < s.reconnectAttempts + 1 →
      (onClose true maxA d0 s code).2 = none ∧
      (onClose true maxA d0 s code).1.error = some "Failed to reconnect") ∧
    (code = 1000 → (onClose true maxA d0 s code).2 = none) ∧
    (onOpen s).reconnectAttempts = 0 := by
  refine ⟨?_, ?_, ?_, rfl⟩
  · intro hcode hle
    rw [onClose, if_pos ⟨rfl, hcode⟩, if_pos hle, Nat.add_sub_cancel]
  · intro hcode hgt
    rw [onClose, if_pos ⟨rfl, hcode⟩, if_neg (not_le.mpr hgt)]
    exact ⟨rfl, rfl⟩
  · intro hcode
    rw [onClose, if_neg (by exact fun h => h.2 hcode)]

theorem reconnect_backoff_policy_witness :
    onClose true 10 1000 ⟨false, 0, none⟩ 1006
      = (⟨false, 1, none⟩, some (min (1000 * 2 ^ 0) 30000)) ∧
    (onOpen ⟨false, 7, some "Failed to reconnect"⟩).reconnectAttempts = 0 :=
  ⟨(reconnect_backoff_policy 10 1000 ⟨false, 0, none⟩ 1006).1
      (by norm_num) (by norm_num),
   (reconnect_backoff_policy 10 1000 ⟨false, 7, some "Failed to reconnect"⟩
      1006).2.2.2⟩

/-- C10: a successful STK callback matching the outstanding request whose
`amount` field is missing or 0 credits a mobile TenderLine of exactly the
session's remaining balance at that moment (`data.amount ||
remainingBalance`), and afterwards the remaining balance is exactly 0. -/
theorem stk_missing_amount_defaults_to_balance (g : ℚ) (s : ModalState)
    (rid : String) (d : StkCallbackData)
    (hrid : s.checkoutRequestId = some rid)
    (hok : d.status = "success" ∧ d.checkout_request_id = some rid)
    (hamt : d.amount = none ∨ d.amount = some 0) :
    (handleStkCallback g s d).payments
      = s.payments ++
        [stkPayment (remainingBalance g s.payments) d.mpesa_receipt] ∧
    remainingBalance g (handleStkCallback g s d).payments = 0 := by
  have hnum : jsNumOr d.amount (remainingBalance g s.payments)
      = remainingBalance g s.payments := by
    rcases hamt with h | h <;> simp [jsNumOr, h]
  have h1 : (handleStkCallback g s d).payments
      = s.payments ++
        [stkPayment (remainingBalance g s.payments) d.mpesa_receipt] := by
    rw [handleStkCallback, hrid]
    simp only [if_pos hok]
    rw [hnum]
  refine ⟨h1, ?_⟩
  rw [h1]
  have h2 : paidAmount [stkPayment (remainingBalance g s.payments)
      d.mpesa_receipt] = remainingBalance g s.payments := by
    simp [paidAmount, stkPayment]
  rw [remainingBalance, paidAmount_append, h2]
  rcases le_total (g - paidAmount s.payments) 0 with h | h
  · rw [remainingBalance, max_eq_left h]
    apply max_eq_left
    linarith
  · rw [remainingBalance, max_eq_right h]
    apply max_eq_left
    linarith

/-- State used in the C10 witness: a checkout of 250 with 50 already paid
in cash and an outstanding STK request R7, so the balance is 200. -/
def c10State : ModalState :=
  { payments := [cashPayment 50 50], checkoutRequestId := some "R7",
    isProcessing := true, waitingForBuyGoods := false }

/-- Successful STK callback for R7 carrying no amount field. -/
def c10Stk : StkCallbackData :=
  { status := "success", checkout_request_id := some "R7",
    mpesa_receipt := some "RCPT7", amount := none }

theorem stk_missing_amount_defaults_to_balance_witness :
    (handleStkCallback 250 c10State c10Stk).payments
      = c10State.payments ++
        [stkPayment (remainingBalance 250 c10State.payments)
          c10Stk.mpesa_receipt] ∧
    remainingBalance 250 (handleStkCallback 250 c10State c10Stk).payments
      = 0 :=
  stk_missing_amount_defaults_to_balance 250 c10State "R7" c10Stk rfl
    ⟨rfl, rfl⟩ (Or.inl rfl)

end DukaPOS
